import Mathlib

/-!
Verification development for the digma repository: a 2D instance renderer with a
pannable, zoomable camera.  The development shallowly embeds the two source files:

* `src/crates/renderer_wgpu/src/shader.wgsl` — the GPU vertex/fragment shaders,
  embedded over `ℚ` (exact field arithmetic standing in for `f32`);
* `src/web/src/App.tsx` — the browser-side input handlers and the frame loop,
  embedded over `ℝ` (idealised JS numbers) as explicit state-transition functions.

The wasm app crate (Camera operations such as `zoomAtScreenPoint`) is not part of
the sources; where a property depends on it, the operation is modelled from the
spec (§4.1) and marked as such.
-/

namespace Digma

/-! ## Shader embedding (shader.wgsl), over ℚ -/

/-- A 2-component vector (`vec2<f32>` in the shader), over exact rationals. -/
@[ext]
structure QPoint where
  x : ℚ
  y : ℚ
deriving DecidableEq, Repr

/-- `CameraUniform` from shader.wgsl: `{ pan: vec2<f32>, zoom: f32, canvas: vec2<f32> }`
(the `_pad0`/`_pad1` alignment padding carries no data and is omitted). -/
structure CameraUniform where
  pan : QPoint
  zoom : ℚ
  canvas : QPoint
deriving DecidableEq, Repr

/-- An RGBA color (`vec4<f32>`). -/
structure RGBA where
  r : ℚ
  g : ℚ
  b : ℚ
  a : ℚ
deriving DecidableEq, Repr

/-- `InstanceRecord` of the data model (§3): per-instance position, size and color.
On the GPU these arrive as the vertex attributes `inst_pos`, `inst_size`, `inst_color`. -/
structure InstanceRecord where
  position : QPoint
  size : QPoint
  color : RGBA
deriving DecidableEq, Repr

/-- `vs_main` from shader.wgsl: computes the clip-space position of one quad corner.
`in_pos` is the unit-quad corner offset, `inst_pos`/`inst_size` the per-instance
attributes.  The shader emits `vec4(ndc, 0.0, 1.0)`; the model returns the `ndc` pair.
(The shader also receives `inst_color` at `@location(3)` but does not use it.)

    let world = inst_pos + in_pos * inst_size;
    let screen = (world - u_camera.pan) * u_camera.zoom;
    let ndc = vec2(
      (screen.x / u_camera.canvas.x) * 2.0 - 1.0,
      1.0 - (screen.y / u_camera.canvas.y) * 2.0); -/
def vs_main (u_camera : CameraUniform) (in_pos inst_pos inst_size : QPoint) : QPoint :=
  let world : QPoint := ⟨inst_pos.x + in_pos.x * inst_size.x, inst_pos.y + in_pos.y * inst_size.y⟩
  let screen : QPoint := ⟨(world.x - u_camera.pan.x) * u_camera.zoom,
                          (world.y - u_camera.pan.y) * u_camera.zoom⟩
  ⟨(screen.x / u_camera.canvas.x) * 2 - 1, 1 - (screen.y / u_camera.canvas.y) * 2⟩

/-- `fs_main` from shader.wgsl: the fragment stage returns the constant color
`vec4(0.2, 0.6, 0.9, 1.0)` — it takes no inputs at all. -/
def fs_main : RGBA := ⟨0.2, 0.6, 0.9, 1⟩

/-! ### The §4.3 TransformPipeline formula, stated from the spec's words
(for comparison with the shader). -/

/-- Spec §4.3: `world = instance.position + corner_offset * instance.size`. -/
def specWorld (position size corner_offset : QPoint) : QPoint :=
  ⟨position.x + corner_offset.x * size.x, position.y + corner_offset.y * size.y⟩

/-- Spec §4.3: `screen = (world − camera.pan) * camera.zoom`. -/
def specScreen (pan : QPoint) (zoom : ℚ) (world : QPoint) : QPoint :=
  ⟨(world.x - pan.x) * zoom, (world.y - pan.y) * zoom⟩

/-- Spec §4.3: `ndc.x = (screen.x / canvas.width) * 2 − 1`. -/
def specNdcX (width screenX : ℚ) : ℚ :=
  (screenX / width) * 2 - 1

/-- Spec §4.3: `ndc.y = 1 − (screen.y / canvas.height) * 2`. -/
def specNdcY (height screenY : ℚ) : ℚ :=
  1 - (screenY / height) * 2

/-! ## Camera operation (modelled from the spec), over ℚ -/

/-- `CameraView` of the data model (§3): `{pan: Point, zoom: float}`. -/
structure CameraView where
  pan : QPoint
  zoom : ℚ
deriving DecidableEq, Repr

/-- Modelled from the spec: `zoomAtScreenPoint` lives in the wasm app crate, which is
not among the sources; §4.1 gives the algorithm verbatim: reject a non-positive
multiplier; otherwise `world_pivot = pan + pivot_px / zoom_old`,
`zoom_new = zoom_old * multiplier`, `pan_new = world_pivot − pivot_px / zoom_new`.
(The implementation-chosen maximum-zoom clamp of §4.1 is left out: the spec does not
fix its value, and no claim depends on it.) -/
def zoomAtScreenPoint (c : CameraView) (pivot_px : QPoint) (multiplier : ℚ) : CameraView :=
  if multiplier ≤ 0 then c
  else
    let zoom_new := c.zoom * multiplier
    let world_pivot : QPoint := ⟨c.pan.x + pivot_px.x / c.zoom, c.pan.y + pivot_px.y / c.zoom⟩
    { pan := ⟨world_pivot.x - pivot_px.x / zoom_new, world_pivot.y - pivot_px.y / zoom_new⟩
      zoom := zoom_new }

/-! ## App.tsx embedding, over ℝ

The component closure of `App()` holds the mutable variables `spaceDown`,
`isPanning`, `lastPt`, `batch` plus the `onMount` locals `running` and the HUD
signal `cameraText`.  Each DOM listener and the `frame` callback is embedded as an
explicit transition on that state.  JS numbers are idealised as `ℝ`. -/

/-- A JS `{x, y}` point (`Point` in App.tsx). -/
structure JPoint where
  x : ℝ
  y : ℝ

/-- `CameraView` as it comes back from `app.tick` (`out.camera`). -/
structure JCameraView where
  pan : JPoint
  zoom : ℝ

/-- `InputEvent` from App.tsx: the tagged union of the two camera events. -/
inductive InputEvent where
  | camera_pan_by_screen_delta (delta_px : JPoint)
  | camera_zoom_at_screen_point (pivot_px : JPoint) (zoom_multiplier : ℝ)

/-- The `batch` object `{ events: InputEvent[] }`.  JS object and array identity are
made explicit: `batchId` stands for the identity of the batch object itself and
`arrayId` for the identity of its `events` array, so that in-place mutation
(which keeps both) can be told apart from reallocation (which would change one). -/
structure Batch where
  batchId : Nat
  arrayId : Nat
  events : List InputEvent

/-- `batch.events.length = 0` (App.tsx line 144): in-place truncation of the events
array.  The same array object (and a fortiori the same batch object) survives with
its length set to zero; only the contents are dropped. -/
def clearEventsInPlace (b : Batch) : Batch :=
  { b with events := [] }

/-- `batch = { events: [] }` (App.tsx line 137): the batch created once the wasm
module has loaded, with a fresh empty events array. -/
def mkInitialBatch (batchId arrayId : Nat) : Batch :=
  { batchId := batchId, arrayId := arrayId, events := [] }

/-- The component state captured by the `App()` closure and the `onMount` locals. -/
structure AppState where
  spaceDown : Bool
  isPanning : Bool
  lastPt : Option JPoint
  batch : Option Batch
  running : Bool
  cameraText : String

/-- The `pointermove` listener (App.tsx lines 74–88): when a pan is active, a sample
point exists and the batch exists, append a `camera_pan_by_screen_delta` whose delta
is the client position minus the last sample, then move the sample to the client
position; otherwise do nothing. -/
def pointermove (s : AppState) (clientX clientY : ℝ) : AppState :=
  if s.isPanning then
    match s.lastPt, s.batch with
    | some lastPt, some b =>
        let dx := clientX - lastPt.x
        let dy := clientY - lastPt.y
        { s with
          batch := some { b with
            events := b.events ++ [.camera_pan_by_screen_delta ⟨dx, dy⟩] }
          lastPt := some ⟨clientX, clientY⟩ }
    | _, _ => s
  else s

/-- The `wheel` listener (App.tsx lines 114–129): with no batch, return at once;
otherwise append a `camera_zoom_at_screen_point` with the pivot at the client
position relative to the canvas rectangle and multiplier `exp(−deltaY * 0.0015)`. -/
noncomputable def wheel (s : AppState) (clientX clientY rectLeft rectTop deltaY : ℝ) :
    AppState :=
  match s.batch with
  | none => s
  | some b =>
      let pivot : JPoint := ⟨clientX - rectLeft, clientY - rectTop⟩
      let zoomMultiplier := Real.exp (-deltaY * 0.0015)
      { s with
        batch := some { b with
          events := b.events ++ [.camera_zoom_at_screen_point pivot zoomMultiplier] } }

/-- The outcome of `app.tick(batch)`: either a camera snapshot or a thrown value
(`String(err)` coerces the thrown value to text, so the model carries a `String`). -/
inductive TickResult where
  | ok (camera : JCameraView)
  | err (msg : String)

/-- What one invocation of the `frame` callback did: the state it left behind,
whether it called `requestAnimationFrame(frame)` again, and the arguments of its
`app.tick` calls, in order. -/
structure FrameOutcome where
  state : AppState
  scheduledNext : Bool
  ticked : List (Option Batch)

/-- The `frame` callback (App.tsx lines 139–157), parametrised by the behaviour of
`app.tick` and by the HUD formatter (the template literal that applies `toFixed` to
the pan and zoom; its exact decimal rendering is not load-bearing for any claim):

    if (!running) return;
    try {
      const out = app.tick(batch);
      if (batch) batch.events.length = 0;
      setCameraText(pan/zoom text);
    } catch (err) {
      setCameraText(`tick error: ` + String(err));
    }
    rafId = requestAnimationFrame(frame); -/
def frame (tick : Option Batch → TickResult) (fmt : JPoint → ℝ → String)
    (s : AppState) : FrameOutcome :=
  if s.running then
    match tick s.batch with
    | .ok camera =>
        let afterClear : Option Batch :=
          match s.batch with
          | some b => some (clearEventsInPlace b)
          | none => none
        { state := { s with batch := afterClear, cameraText := fmt camera.pan camera.zoom }
          scheduledNext := true
          ticked := [s.batch] }
    | .err e =>
        { state := { s with cameraText := "tick error: " ++ e }
          scheduledNext := true
          ticked := [s.batch] }
  else
    { state := s, scheduledNext := false, ticked := [] }

/-- The `onCleanup` handler (App.tsx lines 162–168), first step: `running = false`.
(The other two steps, `cancelAnimationFrame` and `abortController.abort()`, act on
the scheduler and the listener registry and are modelled at their interfaces:
see `abortListeners`.) -/
def onCleanupRun (s : AppState) : AppState :=
  { s with running := false }

/-- The DOM targets the component attaches listeners to. -/
inductive ListenerTarget where
  | window
  | canvas
deriving DecidableEq, Repr

/-- The event names the component listens for. -/
inductive ListenerKind where
  | keydown
  | keyup
  | pointerdown
  | pointermove
  | pointerup
  | pointercancel
  | wheel
deriving DecidableEq, Repr

/-- One `addEventListener` registration; `signal` is the id of the `AbortSignal`
passed in its options. -/
structure ListenerReg where
  target : ListenerTarget
  kind : ListenerKind
  signal : Nat
deriving DecidableEq, Repr

/-- The seven listener registrations `onMount` performs (App.tsx lines 37–129),
every one with `{ signal: abortController.signal }` — the single signal `sig`. -/
def appListeners (sig : Nat) : List ListenerReg :=
  [⟨.window, .keydown, sig⟩, ⟨.window, .keyup, sig⟩,
   ⟨.canvas, .pointerdown, sig⟩, ⟨.canvas, .pointermove, sig⟩,
   ⟨.canvas, .pointerup, sig⟩, ⟨.canvas, .pointercancel, sig⟩,
   ⟨.canvas, .wheel, sig⟩]

/-- `abortController.abort()` as seen by the listener registry: every listener
registered with the aborted signal is removed. -/
def abortListeners (sig : Nat) (regs : List ListenerReg) : List ListenerReg :=
  regs.filter (fun l => l.signal != sig)

/-! ## Helper functions for stating the claims -/

/-- The last element of a list of points, with a default for the empty list
(the pointer position after a sequence of moves, starting from the pan-start
sample). -/
def lastD (pts : List JPoint) (d : JPoint) : JPoint :=
  match pts with
  | [] => d
  | p :: rest => lastD rest p

/-- A sequence of `pointermove` events at the given client positions, in order. -/
def pointermoveRun (s : AppState) (pts : List JPoint) : AppState :=
  pts.foldl (fun st p => pointermove st p.x p.y) s

/-- The componentwise sum of the pan deltas in a list of events. -/
def panDeltaSum : List InputEvent → JPoint
  | [] => ⟨0, 0⟩
  | .camera_pan_by_screen_delta d :: rest =>
      let s := panDeltaSum rest
      ⟨d.x + s.x, d.y + s.y⟩
  | .camera_zoom_at_screen_point _ _ :: rest => panDeltaSum rest

/-! ## Claims -/

/-- C1: the GPU vertex transform `vs_main` maps every instance corner exactly by the
§4.3 pipeline — `world = position + corner * size`, `screen = (world − pan) * zoom`,
`ndc.x = (screen.x / width) * 2 − 1`, `ndc.y = 1 − (screen.y / height) * 2` — and the
Y axis is flipped: for a positive canvas height, a larger `screen.y` gives a strictly
smaller `ndc.y`.  Holds for every camera state, canvas with non-zero (positive)
width and height, instance record, and corner offset. -/
theorem vsMain_follows_spec_pipeline (u : CameraUniform) (corner inst_pos inst_size : QPoint)
    (hw : 0 < u.canvas.x) (hh : 0 < u.canvas.y) :
    vs_main u corner inst_pos inst_size =
      ⟨specNdcX u.canvas.x (specScreen u.pan u.zoom (specWorld inst_pos inst_size corner)).x,
       specNdcY u.canvas.y (specScreen u.pan u.zoom (specWorld inst_pos inst_size corner)).y⟩ ∧
    (∀ s₁ s₂ : ℚ, s₁ < s₂ → specNdcY u.canvas.y s₂ < specNdcY u.canvas.y s₁) := by
  constructor
  · simp [vs_main, specNdcX, specNdcY, specScreen, specWorld]
  · intro s₁ s₂ hs
    unfold specNdcY
    have hd : s₁ / u.canvas.y < s₂ / u.canvas.y := by gcongr
    linarith

/-- Witness for C1 at a concrete input: camera pan (7, −3), zoom 2, canvas 800×600,
instance at (40, 30) of size (10, 20), corner offset (1, 1). -/
theorem vsMain_follows_spec_pipeline_witness :
    (0 : ℚ) < (800 : ℚ) ∧ (0 : ℚ) < (600 : ℚ) ∧
    (vs_main ⟨⟨7, -3⟩, 2, ⟨800, 600⟩⟩ ⟨1, 1⟩ ⟨40, 30⟩ ⟨10, 20⟩ =
      ⟨specNdcX 800 (specScreen ⟨7, -3⟩ 2 (specWorld ⟨40, 30⟩ ⟨10, 20⟩ ⟨1, 1⟩)).x,
       specNdcY 600 (specScreen ⟨7, -3⟩ 2 (specWorld ⟨40, 30⟩ ⟨10, 20⟩ ⟨1, 1⟩)).y⟩) ∧
    specNdcY 600 (3 : ℚ) < specNdcY 600 (2 : ℚ) := by
  refine ⟨by norm_num, by norm_num, ?_, ?_⟩
  · exact (vsMain_follows_spec_pipeline ⟨⟨7, -3⟩, 2, ⟨800, 600⟩⟩ ⟨1, 1⟩ ⟨40, 30⟩ ⟨10, 20⟩
      (by norm_num) (by norm_num)).1
  · exact (vsMain_follows_spec_pipeline ⟨⟨7, -3⟩, 2, ⟨800, 600⟩⟩ ⟨1, 1⟩ ⟨40, 30⟩ ⟨10, 20⟩
      (by norm_num) (by norm_num)).2 2 3 (by norm_num)

/-- C2: pivot invariance of the §4.1 zoom algorithm.  For `zoom_old > 0` and
`multiplier > 0`, the world point `w` that the shader screen transform maps to
`pivot_px` before `zoomAtScreenPoint` — the unique such point — is still mapped to
`pivot_px` by the updated camera. -/
theorem zoomAtScreenPoint_pivot_invariant (c : CameraView) (pivot_px : QPoint) (m : ℚ)
    (w : QPoint) (hz : 0 < c.zoom) (hm : 0 < m)
    (hx : (w.x - c.pan.x) * c.zoom = pivot_px.x)
    (hy : (w.y - c.pan.y) * c.zoom = pivot_px.y) :
    ((w.x - (zoomAtScreenPoint c pivot_px m).pan.x) * (zoomAtScreenPoint c pivot_px m).zoom
        = pivot_px.x ∧
     (w.y - (zoomAtScreenPoint c pivot_px m).pan.y) * (zoomAtScreenPoint c pivot_px m).zoom
        = pivot_px.y) ∧
    (∀ w' : QPoint, (w'.x - c.pan.x) * c.zoom = pivot_px.x →
        (w'.y - c.pan.y) * c.zoom = pivot_px.y → w' = w) := by
  have hm' : ¬ m ≤ 0 := not_le.mpr hm
  have hz0 : c.zoom ≠ 0 := ne_of_gt hz
  have hzm : c.zoom * m ≠ 0 := mul_ne_zero hz0 (ne_of_gt hm)
  have hwx : w.x - c.pan.x = pivot_px.x / c.zoom := (eq_div_iff hz0).mpr hx
  have hwy : w.y - c.pan.y = pivot_px.y / c.zoom := (eq_div_iff hz0).mpr hy
  refine ⟨?_, ?_⟩
  · simp only [zoomAtScreenPoint, hm', if_false]
    constructor
    · have key : w.x - (c.pan.x + pivot_px.x / c.zoom - pivot_px.x / (c.zoom * m))
          = pivot_px.x / (c.zoom * m) := by linarith
      rw [key, div_mul_cancel₀ _ hzm]
    · have key : w.y - (c.pan.y + pivot_px.y / c.zoom - pivot_px.y / (c.zoom * m))
          = pivot_px.y / (c.zoom * m) := by linarith
      rw [key, div_mul_cancel₀ _ hzm]
  · intro w' hx' hy'
    ext
    · have := hx'.trans hx.symm
      have := mul_right_cancel₀ hz0 this
      linarith
    · have := hy'.trans hy.symm
      have := mul_right_cancel₀ hz0 this
      linarith

/-- Witness for C2 at a concrete input: camera pan (0, 0), zoom 1, pivot (400, 300),
multiplier 2; the pivot's world point is (400, 300). -/
theorem zoomAtScreenPoint_pivot_invariant_witness :
    (0 : ℚ) < (1 : ℚ) ∧ (0 : ℚ) < (2 : ℚ) ∧
    (((400 : ℚ) - (0 : ℚ)) * 1 = 400) ∧ (((300 : ℚ) - (0 : ℚ)) * 1 = 300) ∧
    ((((400 : ℚ)) - (zoomAtScreenPoint ⟨⟨0, 0⟩, 1⟩ ⟨400, 300⟩ 2).pan.x) *
        (zoomAtScreenPoint ⟨⟨0, 0⟩, 1⟩ ⟨400, 300⟩ 2).zoom = 400 ∧
     (((300 : ℚ)) - (zoomAtScreenPoint ⟨⟨0, 0⟩, 1⟩ ⟨400, 300⟩ 2).pan.y) *
        (zoomAtScreenPoint ⟨⟨0, 0⟩, 1⟩ ⟨400, 300⟩ 2).zoom = 300) := by
  refine ⟨by norm_num, by norm_num, by norm_num, by norm_num, ?_⟩
  exact (zoomAtScreenPoint_pivot_invariant ⟨⟨0, 0⟩, 1⟩ ⟨400, 300⟩ 2 ⟨400, 300⟩
    (by norm_num) (by norm_num) (by norm_num) (by norm_num)).1

/-- C4 (code divergence): the fragment stage does not use the per-instance color.
`fs_main` returns the constant `(0.2, 0.6, 0.9, 1.0)` for every fragment, so for an
instance whose record carries the color red `(1, 0, 0, 1)` the rasterized color
differs from the instance's RGBA color; the vertex stage receives `inst_color` at
`@location(3)` but never forwards it. -/
theorem fsMain_ignores_instance_color :
    fs_main = ⟨0.2, 0.6, 0.9, 1⟩ ∧
    fs_main ≠ (InstanceRecord.mk ⟨0, 0⟩ ⟨10, 10⟩ ⟨1, 0, 0, 1⟩).color := by
  exact ⟨rfl, by norm_num [fs_main]⟩

/-- C3 (code divergence): when `app.tick` throws, the `frame` handler does NOT clear
the input batch — the clear `batch.events.length = 0` sits inside the `try` after the
`tick` call, so the `catch` path leaves the events in place while the next frame is
still scheduled, and the stale event is replayed on the next tick.  Evaluated at a
concrete failing input: a batch holding one pan event and a tick that throws. -/
theorem frame_error_leaves_batch_uncleared :
    (frame (fun _ => .err "tick failed") (fun _ _ => "")
        ⟨false, false, none, some ⟨0, 0, [.camera_pan_by_screen_delta ⟨1, 1⟩]⟩, true,
         "(no data)"⟩).scheduledNext = true ∧
    (frame (fun _ => .err "tick failed") (fun _ _ => "")
        ⟨false, false, none, some ⟨0, 0, [.camera_pan_by_screen_delta ⟨1, 1⟩]⟩, true,
         "(no data)"⟩).state.batch
      = some ⟨0, 0, [.camera_pan_by_screen_delta ⟨1, 1⟩]⟩ ∧
    (Batch.events ⟨0, 0, [.camera_pan_by_screen_delta ⟨1, 1⟩]⟩ ≠ []) := by
  refine ⟨rfl, rfl, ?_⟩
  simp

/-- C5: when `app.tick` throws, `frame` catches at the tick boundary, reports the
textual message `tick error: ` followed by the stringified thrown value on the
`cameraText` HUD signal, and still schedules the next tick via
`requestAnimationFrame` instead of terminating the loop. -/
theorem frame_reports_error_and_reschedules (tick : Option Batch → TickResult)
    (fmt : JPoint → ℝ → String) (s : AppState) (e : String)
    (hr : s.running = true) (he : tick s.batch = .err e) :
    (frame tick fmt s).state.cameraText = "tick error: " ++ e ∧
    (frame tick fmt s).scheduledNext = true ∧
    (frame tick fmt s).ticked = [s.batch] := by
  simp [frame, hr, he]

/-- Witness for C5: a running state whose tick throws the value `boom`. -/
theorem frame_reports_error_and_reschedules_witness :
    (AppState.running ⟨false, false, none, some ⟨0, 0, []⟩, true, "(no data)"⟩ = true) ∧
    ((fun _ => TickResult.err "boom") (AppState.batch
        ⟨false, false, none, some ⟨0, 0, []⟩, true, "(no data)"⟩) = .err "boom") ∧
    (frame (fun _ => .err "boom") (fun _ _ => "")
        ⟨false, false, none, some ⟨0, 0, []⟩, true, "(no data)"⟩).state.cameraText
      = "tick error: " ++ "boom" ∧
    (frame (fun _ => .err "boom") (fun _ _ => "")
        ⟨false, false, none, some ⟨0, 0, []⟩, true, "(no data)"⟩).scheduledNext = true := by
  refine ⟨rfl, rfl, ?_, ?_⟩
  · exact (frame_reports_error_and_reschedules (fun _ => .err "boom") (fun _ _ => "")
      ⟨false, false, none, some ⟨0, 0, []⟩, true, "(no data)"⟩ "boom" rfl rfl).1
  · exact (frame_reports_error_and_reschedules (fun _ => .err "boom") (fun _ _ => "")
      ⟨false, false, none, some ⟨0, 0, []⟩, true, "(no data)"⟩ "boom" rfl rfl).2.1

/-- C7: after a successful tick, `frame` clears the batch in place: the events list
is truncated to empty while both the events-array identity and the batch-object
identity are preserved (the JS clear is `batch.events.length = 0`, a mutation of the
same array, not a reallocation); the batch was passed to exactly one `app.tick` call
during the frame; and a subsequent frame ticks the already-cleared batch, so each
batch of events is consumed by exactly one tick. -/
theorem frame_clears_batch_in_place (tick : Option Batch → TickResult)
    (fmt : JPoint → ℝ → String) (s : AppState) (b : Batch) (camera : JCameraView)
    (hr : s.running = true) (hb : s.batch = some b) (ht : tick (some b) = .ok camera) :
    (frame tick fmt s).state.batch = some (clearEventsInPlace b) ∧
    (clearEventsInPlace b).events = [] ∧
    (clearEventsInPlace b).arrayId = b.arrayId ∧
    (clearEventsInPlace b).batchId = b.batchId ∧
    (frame tick fmt s).ticked = [some b] ∧
    (frame tick fmt (frame tick fmt s).state).ticked = [some (clearEventsInPlace b)] := by
  have h1 : frame tick fmt s =
      { state := { s with batch := some (clearEventsInPlace b)
                          cameraText := fmt camera.pan camera.zoom }
        scheduledNext := true
        ticked := [some b] } := by
    simp only [frame, hr, hb, ht, if_true]
  refine ⟨by rw [h1], rfl, rfl, rfl, by rw [h1], ?_⟩
  rw [h1]
  simp only [frame, hr, if_true]
  cases tick (some (clearEventsInPlace b)) <;> rfl

/-- Witness for C7: a running state with a one-event batch and a tick that succeeds
with camera pan (0, 0), zoom 1. -/
theorem frame_clears_batch_in_place_witness :
    (AppState.running
        ⟨false, false, none, some ⟨5, 7, [.camera_pan_by_screen_delta ⟨2, 3⟩]⟩, true,
         ""⟩ = true) ∧
    (AppState.batch
        ⟨false, false, none, some ⟨5, 7, [.camera_pan_by_screen_delta ⟨2, 3⟩]⟩, true, ""⟩
      = some ⟨5, 7, [.camera_pan_by_screen_delta ⟨2, 3⟩]⟩) ∧
    ((fun _ => TickResult.ok ⟨⟨0, 0⟩, 1⟩)
        (some (⟨5, 7, [.camera_pan_by_screen_delta ⟨2, 3⟩]⟩ : Batch)) = .ok ⟨⟨0, 0⟩, 1⟩) ∧
    (frame (fun _ => .ok ⟨⟨0, 0⟩, 1⟩) (fun _ _ => "")
        ⟨false, false, none, some ⟨5, 7, [.camera_pan_by_screen_delta ⟨2, 3⟩]⟩, true,
         ""⟩).state.batch
      = some (clearEventsInPlace ⟨5, 7, [.camera_pan_by_screen_delta ⟨2, 3⟩]⟩) ∧
    (clearEventsInPlace ⟨5, 7, [.camera_pan_by_screen_delta ⟨2, 3⟩]⟩).events = [] := by
  refine ⟨rfl, rfl, rfl, ?_, ?_⟩
  · exact (frame_clears_batch_in_place (fun _ => .ok ⟨⟨0, 0⟩, 1⟩) (fun _ _ => "")
      ⟨false, false, none, some ⟨5, 7, [.camera_pan_by_screen_delta ⟨2, 3⟩]⟩, true, ""⟩
      ⟨5, 7, [.camera_pan_by_screen_delta ⟨2, 3⟩]⟩ ⟨⟨0, 0⟩, 1⟩ rfl rfl rfl).1
  · exact (frame_clears_batch_in_place (fun _ => .ok ⟨⟨0, 0⟩, 1⟩) (fun _ _ => "")
      ⟨false, false, none, some ⟨5, 7, [.camera_pan_by_screen_delta ⟨2, 3⟩]⟩, true, ""⟩
      ⟨5, 7, [.camera_pan_by_screen_delta ⟨2, 3⟩]⟩ ⟨⟨0, 0⟩, 1⟩ rfl rfl rfl).2.1

/-- C9: after cleanup sets `running := false`, any `frame` continuation that still
fires performs no work: it calls `app.tick` zero times, leaves the whole state
(including the HUD text) unchanged, and does not schedule another frame; and since
all seven listeners are registered with the one `abortController.signal`,
`abortController.abort()` releases every listener the component registered,
together. -/
theorem cleanup_stops_loop_and_releases_listeners :
    (∀ (tick : Option Batch → TickResult) (fmt : JPoint → ℝ → String) (s : AppState),
      frame tick fmt (onCleanupRun s) =
        { state := onCleanupRun s, scheduledNext := false, ticked := [] }) ∧
    (∀ sig : Nat, abortListeners sig (appListeners sig) = []) := by
  constructor
  · intro tick fmt s
    rfl
  · intro sig
    simp [abortListeners, appListeners]

/-- C6: every `camera_zoom_at_screen_point` event the wheel listener appends carries
the multiplier `exp(−deltaY * 0.0015)`, which is strictly positive for every real
`deltaY`, and equals exactly 1 when `deltaY = 0`. -/
theorem wheel_zoom_multiplier_pos (s : AppState) (b : Batch)
    (clientX clientY rectLeft rectTop deltaY : ℝ) (hb : s.batch = some b) :
    (wheel s clientX clientY rectLeft rectTop deltaY).batch =
      some { b with events := b.events ++
        [.camera_zoom_at_screen_point ⟨clientX - rectLeft, clientY - rectTop⟩
          (Real.exp (-deltaY * 0.0015))] } ∧
    0 < Real.exp (-deltaY * 0.0015) ∧
    (deltaY = 0 → Real.exp (-deltaY * 0.0015) = 1) := by
  refine ⟨?_, Real.exp_pos _, ?_⟩
  · simp [wheel, hb]
  · intro h
    rw [h]
    simp

/-- Witness for C6: a state with an empty batch, wheel at client (1, 2) over a
canvas rectangle at (3, 4), `deltaY = 0`. -/
theorem wheel_zoom_multiplier_pos_witness :
    (AppState.batch ⟨false, false, none, some ⟨0, 0, []⟩, true, ""⟩ = some ⟨0, 0, []⟩) ∧
    0 < Real.exp (-(0 : ℝ) * 0.0015) ∧
    ((0 : ℝ) = 0 → Real.exp (-(0 : ℝ) * 0.0015) = 1) := by
  refine ⟨rfl, ?_, ?_⟩
  · exact (wheel_zoom_multiplier_pos ⟨false, false, none, some ⟨0, 0, []⟩, true, ""⟩
      ⟨0, 0, []⟩ 1 2 3 4 0 rfl).2.1
  · exact (wheel_zoom_multiplier_pos ⟨false, false, none, some ⟨0, 0, []⟩, true, ""⟩
      ⟨0, 0, []⟩ 1 2 3 4 0 rfl).2.2

/-- Auxiliary induction for C8: running `pointermove` over a list of client
positions, starting from an active pan with sample point `p0` and batch `b`, keeps
the pan active, leaves the sample at the last position, and appends a block of pan
events whose deltas sum to the total displacement from `p0`. -/
theorem pointermoveRun_pan_events (pts : List JPoint) :
    ∀ (s : AppState) (p0 : JPoint) (b : Batch),
      s.isPanning = true → s.lastPt = some p0 → s.batch = some b →
      (pointermoveRun s pts).isPanning = true ∧
      (pointermoveRun s pts).lastPt = some (lastD pts p0) ∧
      ∃ tail : List InputEvent,
        (pointermoveRun s pts).batch = some { b with events := b.events ++ tail } ∧
        panDeltaSum tail = ⟨(lastD pts p0).x - p0.x, (lastD pts p0).y - p0.y⟩ := by
  induction pts with
  | nil =>
      intro s p0 b hp hl hb
      refine ⟨hp, ?_, [], ?_, ?_⟩
      · simpa [pointermoveRun, lastD] using hl
      · simpa [pointermoveRun] using hb
      · simp [panDeltaSum, lastD]
  | cons p rest ih =>
      intro s p0 b hp hl hb
      have hstep : pointermove s p.x p.y =
          { s with
            batch := some { b with events := b.events ++
              [.camera_pan_by_screen_delta ⟨p.x - p0.x, p.y - p0.y⟩] }
            lastPt := some ⟨p.x, p.y⟩ } := by
        simp [pointermove, hp, hl, hb]
      have hrun : pointermoveRun s (p :: rest) =
          pointermoveRun (pointermove s p.x p.y) rest := rfl
      obtain ⟨hP, hL, tail, hB, hSum⟩ :=
        ih (pointermove s p.x p.y) ⟨p.x, p.y⟩
          { b with events := b.events ++
              [.camera_pan_by_screen_delta ⟨p.x - p0.x, p.y - p0.y⟩] }
          (by rw [hstep]; exact hp) (by rw [hstep]) (by rw [hstep])
      refine ⟨by rw [hrun]; exact hP, by rw [hrun]; exact hL,
        .camera_pan_by_screen_delta ⟨p.x - p0.x, p.y - p0.y⟩ :: tail, ?_, ?_⟩
      · rw [hrun]
        rw [hB]
        simp
      · have hlast : lastD (p :: rest) p0 = lastD rest p := rfl
        rw [hlast]
        simp only [panDeltaSum, hSum]
        have hx : p.x - p0.x + ((lastD rest p).x - p.x) = (lastD rest p).x - p0.x := by ring
        have hy : p.y - p0.y + ((lastD rest p).y - p.y) = (lastD rest p).y - p0.y := by ring
        rw [hx, hy]

/-- C8: during an active pan with last sample `p0` and live batch `b`, a
`pointermove` at any client position appends exactly one pan event whose delta is
the client position minus `p0` and updates the sample to the client position; and
over any uninterrupted sequence of moves the appended deltas sum (telescope) to the
pointer's total displacement since the drag began. -/
theorem pointermove_deltas_telescope (s : AppState) (p0 : JPoint) (b : Batch)
    (hp : s.isPanning = true) (hl : s.lastPt = some p0) (hb : s.batch = some b) :
    (∀ clientX clientY : ℝ, pointermove s clientX clientY =
      { s with
        batch := some { b with events := b.events ++
          [.camera_pan_by_screen_delta ⟨clientX - p0.x, clientY - p0.y⟩] }
        lastPt := some ⟨clientX, clientY⟩ }) ∧
    (∀ pts : List JPoint, ∃ tail : List InputEvent,
      (pointermoveRun s pts).batch = some { b with events := b.events ++ tail } ∧
      panDeltaSum tail = ⟨(lastD pts p0).x - p0.x, (lastD pts p0).y - p0.y⟩) := by
  constructor
  · intro clientX clientY
    simp [pointermove, hp, hl, hb]
  · intro pts
    exact (pointermoveRun_pan_events pts s p0 b hp hl hb).2.2

/-- Witness for C8: pan active at sample (0, 0) with an empty batch; one move to
(3, 4), and a run over the positions (1, 2), (3, 5). -/
theorem pointermove_deltas_telescope_witness :
    (AppState.isPanning ⟨false, true, some ⟨0, 0⟩, some ⟨0, 0, []⟩, true, ""⟩ = true) ∧
    (AppState.lastPt ⟨false, true, some ⟨0, 0⟩, some ⟨0, 0, []⟩, true, ""⟩
      = some ⟨0, 0⟩) ∧
    (AppState.batch ⟨false, true, some ⟨0, 0⟩, some ⟨0, 0, []⟩, true, ""⟩
      = some ⟨0, 0, []⟩) ∧
    (pointermove ⟨false, true, some ⟨0, 0⟩, some ⟨0, 0, []⟩, true, ""⟩ 3 4 =
      { (⟨false, true, some ⟨0, 0⟩, some ⟨0, 0, []⟩, true, ""⟩ : AppState) with
        batch := some { (⟨0, 0, []⟩ : Batch) with events := [] ++
          [.camera_pan_by_screen_delta ⟨3 - (0 : ℝ), 4 - (0 : ℝ)⟩] }
        lastPt := some ⟨3, 4⟩ }) ∧
    (∃ tail : List InputEvent,
      (pointermoveRun ⟨false, true, some ⟨0, 0⟩, some ⟨0, 0, []⟩, true, ""⟩
          [⟨1, 2⟩, ⟨3, 5⟩]).batch
        = some { (⟨0, 0, []⟩ : Batch) with events := [] ++ tail } ∧
      panDeltaSum tail =
        ⟨(lastD [⟨1, 2⟩, ⟨3, 5⟩] ⟨0, 0⟩).x - (0 : ℝ),
         (lastD [⟨1, 2⟩, ⟨3, 5⟩] ⟨0, 0⟩).y - (0 : ℝ)⟩) := by
  refine ⟨rfl, rfl, rfl, ?_, ?_⟩
  · exact (pointermove_deltas_telescope ⟨false, true, some ⟨0, 0⟩, some ⟨0, 0, []⟩, true, ""⟩
      ⟨0, 0⟩ ⟨0, 0, []⟩ rfl rfl rfl).1 3 4
  · exact (pointermove_deltas_telescope ⟨false, true, some ⟨0, 0⟩, some ⟨0, 0, []⟩, true, ""⟩
      ⟨0, 0⟩ ⟨0, 0, []⟩ rfl rfl rfl).2 [⟨1, 2⟩, ⟨3, 5⟩]

/-- C10: while the wasm module is still loading (`batch` is `null`), `pointermove`
and `wheel` append no event anywhere and change nothing at all — the gestures are
silently dropped, not queued — and the batch created when initialization completes
starts empty, so the first tick observes only events produced after that point. -/
theorem uninitialized_batch_drops_events (s : AppState) (h : s.batch = none) :
    (∀ clientX clientY : ℝ, pointermove s clientX clientY = s) ∧
    (∀ clientX clientY rectLeft rectTop deltaY : ℝ,
      wheel s clientX clientY rectLeft rectTop deltaY = s) ∧
    (∀ batchId arrayId : Nat, (mkInitialBatch batchId arrayId).events = []) := by
  refine ⟨?_, ?_, fun _ _ => rfl⟩
  · intro clientX clientY
    cases hl : s.lastPt <;> simp [pointermove, h, hl]
  · intro clientX clientY rectLeft rectTop deltaY
    simp [wheel, h]

/-- Witness for C10: the pre-initialization state (no batch, nothing pressed). -/
theorem uninitialized_batch_drops_events_witness :
    (AppState.batch ⟨false, false, none, none, false, "(no data)"⟩ = none) ∧
    (pointermove ⟨false, false, none, none, false, "(no data)"⟩ 5 7
      = ⟨false, false, none, none, false, "(no data)"⟩) ∧
    (wheel ⟨false, false, none, none, false, "(no data)"⟩ 1 2 3 4 5
      = ⟨false, false, none, none, false, "(no data)"⟩) ∧
    (mkInitialBatch 0 0).events = [] := by
  refine ⟨rfl, ?_, ?_, ?_⟩
  · exact (uninitialized_batch_drops_events
      ⟨false, false, none, none, false, "(no data)"⟩ rfl).1 5 7
  · exact (uninitialized_batch_drops_events
      ⟨false, false, none, none, false, "(no data)"⟩ rfl).2.1 1 2 3 4 5
  · exact (uninitialized_batch_drops_events
      ⟨false, false, none, none, false, "(no data)"⟩ rfl).2.2 0 0

end Digma
